import Mathlib

/-!
Verification of the 3T-FIT v4 feature-engineering and workout-decoding core
(`data_cleaning_v4.py`, `two_branch_model_v4.py`, `evaluate_v4_model.py`,
`recommendation_v4.py`).

Python floats are modelled by `ℚ` (the constants involved are small decimal
literals, and the claims are about exact arithmetic identities, clamps and
threshold comparisons, not about IEEE rounding).  `np.clip`, `int(...)` and
`round(x, n)` are modelled explicitly below.  `round` is modelled by
Mathlib's round (half-up); Python's float `round` is half-to-even, the two
differ only on exact decimal ties, which no claim exercises.

Python strings are processed as `List Char`; `str.split(c)` and
`str.strip()` are modelled by the structurally recursive `splitChar` and
`trimChars` so that the kernel can evaluate the parser on concrete inputs.
-/

namespace TFit

/-- Model of `np.clip(x, lo, hi)` = `min hi (max lo x)`. -/
def pyclip (x lo hi : ℚ) : ℚ := min hi (max lo x)

/-- Python `int(q)`: truncation toward zero. -/
def pytrunc (q : ℚ) : ℤ := if 0 ≤ q then ⌊q⌋ else ⌈q⌉

/-- Python `round(x, 2)` (to two decimals, ties modelled half-up). -/
def round2 (q : ℚ) : ℚ := (round (q * 100) : ℤ) / 100

/-- Python `round(x, 3)`. -/
def round3 (q : ℚ) : ℚ := (round (q * 1000) : ℤ) / 1000

/-- Python `round(x, 1)`. -/
def round1 (q : ℚ) : ℚ := (round (q * 10) : ℤ) / 10

/-- Python `s.split(sep)` for a one-character separator (keeps empty
pieces; `"".split(sep) == [""]`). -/
def splitChar (sep : Char) : List Char → List (List Char)
  | [] => [[]]
  | c :: cs =>
    let rest := splitChar sep cs
    if c == sep then [] :: rest
    else
      match rest with
      | [] => [[c]]
      | h :: t => (c :: h) :: t

/-- Python `str.strip()` (whitespace at both ends). -/
def trimChars (cs : List Char) : List Char :=
  ((cs.dropWhile Char.isWhitespace).reverse.dropWhile Char.isWhitespace).reverse

/-- Value of a list of decimal digit characters. -/
def digitsToNat (cs : List Char) : ℕ :=
  cs.foldl (fun a c => a * 10 + (c.toNat - 48)) 0

/-- Unsigned decimal mantissa accepted by Python `float`:
`digits`, `digits.`, `.digits` or `digits.digits`. -/
def decMantissa (cs : List Char) : Option ℚ :=
  match splitChar '.' cs with
  | [i] =>
    if !i.isEmpty && i.all Char.isDigit then some (digitsToNat i) else none
  | [i, f] =>
    if !(i.isEmpty && f.isEmpty) && i.all Char.isDigit && f.all Char.isDigit
    then some ((digitsToNat i : ℚ) + (digitsToNat f : ℚ) / 10 ^ f.length)
    else none
  | _ => none

/-- Signed decimal exponent accepted by Python `float` after `e`/`E`. -/
def decExponent (cs : List Char) : Option ℤ :=
  match cs with
  | '+' :: r => if !r.isEmpty && r.all Char.isDigit then some (digitsToNat r) else none
  | '-' :: r => if !r.isEmpty && r.all Char.isDigit then some (-(digitsToNat r : ℤ)) else none
  | r => if !r.isEmpty && r.all Char.isDigit then some (digitsToNat r) else none

/-- Model of Python `float(s)` on strings: surrounding whitespace, optional
sign, decimal mantissa, optional decimal exponent.  (`inf`/`nan`/underscore
literals are not modelled; no claim mentions them.)  `none` models a raised
`ValueError`. -/
def pyFloatChars (cs0 : List Char) : Option ℚ :=
  let cs := trimChars cs0
  let sb : ℚ × List Char :=
    match cs with
    | '+' :: r => (1, r)
    | '-' :: r => (-1, r)
    | r => (1, r)
  match splitChar 'e' (sb.2.map fun c => if c == 'E' then 'e' else c) with
  | [m] => (decMantissa m).map fun q => sb.1 * q
  | [m, ex] =>
    match decMantissa m, decExponent ex with
    | some q, some e => some (sb.1 * q * (10 : ℚ) ^ e)
    | _, _ => none
  | _ => none

/-- One parsed `"reps x weight x sets"` exercise-set record
(the `(reps, weight, sets)` tuples built by `_parse_workout_data`). -/
structure ExRecord where
  reps : ℚ
  weight : ℚ
  sets : ℚ
deriving DecidableEq, Repr

/-- One loop iteration of `_parse_workout_data` (also the inline per-segment
parse of `process_exercise_data`): strip the segment, split on `'x'`;
fewer than 2 parts is skipped (`.ok none`); a `float` failure raises
(`.error`); `sets` defaults to `1` when the third part is omitted; a parsed
triple with every field `> 0` yields a record, any field `≤ 0` is skipped. -/
def parseSegment (cs : List Char) : Except Unit (Option ExRecord) :=
  match splitChar 'x' (trimChars cs) with
  | p0 :: p1 :: rest =>
    match pyFloatChars p0, pyFloatChars p1 with
    | some reps, some weight =>
      match rest with
      | [] =>
        if 0 < reps ∧ 0 < weight
        then .ok (some ⟨reps, weight, 1⟩) else .ok none
      | p2 :: _ =>
        match pyFloatChars p2 with
        | some sets =>
          if 0 < reps ∧ 0 < weight ∧ 0 < sets
          then .ok (some ⟨reps, weight, sets⟩) else .ok none
        | none => .error ()
    | _, _ => .error ()
  | _ => .ok none

/-- The loop of `_parse_workout_data`: segments are processed left to right;
a skipped segment contributes nothing, and a raised `ValueError` aborts the
loop, returning the records accumulated so far. -/
def parseSegsGo : List (List Char) → List ExRecord
  | [] => []
  | seg :: rest =>
    match parseSegment seg with
    | .error _ => []
    | .ok none => parseSegsGo rest
    | .ok (some r) => r :: parseSegsGo rest

/-- Model of `V4DataCleaner._parse_workout_data` (`data_cleaning_v4.py:287`). -/
def parseWorkoutData (s : String) : List ExRecord :=
  parseSegsGo (splitChar '|' s.data)

/-- The record a segment contributes when it neither raises nor is skipped. -/
def segRecord (seg : List Char) : Option ExRecord :=
  match parseSegment seg with
  | .ok (some r) => some r
  | _ => none

/-- Modelled from the spec (refinement comparison): the parser the claim
describes, in which every malformed segment is dropped silently and
*independently* of the others. -/
def parseWorkoutIndependent (s : String) : List ExRecord :=
  (splitChar '|' s.data).filterMap segRecord

/-! ## Intensity coefficients -/

/-- The five intensity coefficients (the `coefficients` dict of
`process_exercise_data`, also the per-row columns written by
`calculate_intensity_coefficients`). -/
structure Coeffs where
  resistance_intensity : ℚ
  cardio_intensity : ℚ
  volume_load : ℚ
  rest_density : ℚ
  tempo_factor : ℚ
deriving DecidableEq, Repr

/-- The default coefficients of `process_exercise_data`
(`rest_density = 0.3`, `tempo_factor = 1.0`, rest `0.0`). -/
def defaultCoeffs : Coeffs := ⟨0, 0, 0, 3/10, 1⟩

/-- Model of `IntensityCoefficientsCalculator.calculate_resistance_intensity`
(`two_branch_model_v4.py:65`). -/
def calcResistanceIntensity (weight reps user1rm : ℚ) : ℚ :=
  if user1rm ≤ 0 ∨ weight ≤ 0 ∨ reps ≤ 0 then 0
  else (weight * reps) / (user1rm * 10)

/-- Model of `IntensityCoefficientsCalculator.calculate_cardio_intensity`
(`two_branch_model_v4.py:74`): `distance / (time × User_MaxPace)`. -/
def calcCardioIntensity (distance time userMaxPace : ℚ) : ℚ :=
  if userMaxPace ≤ 0 ∨ time ≤ 0 ∨ distance ≤ 0 then 0
  else distance / (time * userMaxPace)

/-- Model of `IntensityCoefficientsCalculator.calculate_volume_load`
(`two_branch_model_v4.py:83`). -/
def calcVolumeLoad (weight reps sets maxVolume : ℚ) : ℚ :=
  let mv := if maxVolume ≤ 0 then 10000 else maxVolume
  (weight * reps * sets) / mv

/-- Model of `IntensityCoefficientsCalculator.calculate_tempo_factor`
(`two_branch_model_v4.py:101`); `process_exercise_data` calls it with its
default arguments `(2.0, 1.0, 0.0)`. -/
def calcTempoFactor (eccentric concentric isometric : ℚ) : ℚ :=
  let total := eccentric + concentric + isometric
  if total ≤ 0 then 1 else pyclip (4 / total) (1/2) (3/2)

/-- The running totals of the `process_exercise_data` loop. -/
structure PTotals where
  resistance : ℚ
  cardio : ℚ
  volume : ℚ
  work : ℚ
  rest : ℚ
deriving DecidableEq, Repr

/-- The loop of `process_exercise_data`: per valid segment accumulate
`resistance_int*sets`, `cardio_int*sets` (with `distance := weight` and
`time := reps*4`), `volume_load`, work and rest time; an exception anywhere
abandons the computation (`.error`). -/
def processGo (user1rm pace : ℚ) : List (List Char) → Except Unit PTotals
  | [] => .ok ⟨0, 0, 0, 0, 0⟩
  | seg :: rest =>
    match parseSegment seg with
    | .error e => .error e
    | .ok none => processGo user1rm pace rest
    | .ok (some r) =>
      match processGo user1rm pace rest with
      | .error e => .error e
      | .ok t =>
        .ok { resistance := t.resistance + calcResistanceIntensity r.weight r.reps user1rm * r.sets
              cardio := t.cardio + calcCardioIntensity r.weight (r.reps * 4) pace * r.sets
              volume := t.volume + calcVolumeLoad r.weight r.reps r.sets 10000
              work := t.work + r.reps * r.sets * 4
              rest := t.rest + r.sets * 120 }

/-- The tail of `process_exercise_data` after the loop: on an exception the
defaults survive; otherwise, when some valid segment contributed work time,
the totals are divided by the number of `'|'`-segments (`len(exercises)`)
and clipped. -/
def finishProcess (segCount : ℕ) (res : Except Unit PTotals) : Coeffs :=
  match res with
  | .error _ => defaultCoeffs
  | .ok t =>
    if 0 < t.work then
      { resistance_intensity := pyclip (t.resistance / segCount) 0 2
        cardio_intensity := pyclip (t.cardio / segCount) 0 (3/2)
        volume_load := pyclip (t.volume / 10000) 0 1
        rest_density := pyclip (t.rest / (t.work + t.rest)) 0 1
        tempo_factor := calcTempoFactor 2 1 0 }
    else defaultCoeffs

/-- Model of `IntensityCoefficientsCalculator.process_exercise_data`
(`two_branch_model_v4.py:115`).  `none` models a `NaN`/missing workout
string.  On an exception, or when no valid segment contributed work time,
the defaults are returned. -/
def processExerciseData (workout : Option String) (user1rm pace : ℚ) : Coeffs :=
  match workout with
  | none => defaultCoeffs
  | some s =>
    if s = "" then defaultCoeffs
    else finishProcess (splitChar '|' s.data).length
      (processGo user1rm pace (splitChar '|' s.data))

/-- The running totals of the `calculate_intensity_coefficients` row loop
(`data_cleaning_v4.py:220`). -/
structure CleanTotals where
  volume : ℚ
  resistance : ℚ
  cardio : ℚ
  work : ℚ
  rest : ℚ
deriving DecidableEq, Repr

/-- One iteration of the `calculate_intensity_coefficients` loop: skip a
record with a field `≤ 0`; `user_1rm` falls back to `weight*1.5` when the
row's `estimated_1rm` is `≤ 0`; resistance is `(weight*reps)/(user_1rm*10)`
times sets, cardio is `(reps/30)*(1/max(1,sets))` times sets. -/
def cleanStep (estimated1rm : ℚ) (t : CleanTotals) (r : ExRecord) : CleanTotals :=
  if r.reps ≤ 0 ∨ r.weight ≤ 0 ∨ r.sets ≤ 0 then t
  else
    let user1rm := if estimated1rm ≤ 0 then r.weight * (3/2) else estimated1rm
    { volume := t.volume + r.weight * r.reps * r.sets
      resistance := t.resistance + (r.weight * r.reps) / (user1rm * 10) * r.sets
      cardio := t.cardio + (r.reps / 30) * (1 / max 1 r.sets) * r.sets
      work := t.work + r.reps * r.sets * 4
      rest := t.rest + r.sets * 120 }

/-- The per-row core of `V4DataCleaner.calculate_intensity_coefficients`
(`data_cleaning_v4.py:210`): fold the loop over the parsed records, then
write `volume_load`/`resistance_intensity`/`cardio_intensity` when
`total_volume > 0` (divided by `max(1, len(parsed_exercises))` and capped
with `min`), `rest_density` when work time is positive, and the stochastic
`tempo_factor` (the jitter sample is a parameter here) clipped to
`[0.5, 1.5]`.  Columns not overwritten keep their previous row value
(`prev`).  The derived `metabolic_stress` column is not modelled. -/
def cleanCoeffs (records : List ExRecord) (estimated1rm : ℚ) (prev : Coeffs)
    (jitter : ℚ) : Coeffs :=
  let t := records.foldl (cleanStep estimated1rm) ⟨0, 0, 0, 0, 0⟩
  let n : ℚ := ((max 1 records.length : ℕ) : ℚ)
  let c1 :=
    if 0 < t.volume then
      { prev with
        volume_load := min 1 (t.volume / 10000)
        resistance_intensity := min 2 (t.resistance / n)
        cardio_intensity := min (3/2) (t.cardio / n) }
    else prev
  let c2 := if 0 < t.work then { c1 with rest_density := t.rest / (t.work + t.rest) } else c1
  { c2 with tempo_factor := pyclip jitter (1/2) (3/2) }

/-- Modelled from the spec (refinement comparison): the cardio aggregation
exactly as the claim words it — per record `(reps/30)*(1/max(1,sets))`,
accumulated as `Σ cardio_i * sets_i`, divided by the record count, clamped
to `[0, 1.5]`. -/
def cardioPerClaim (records : List ExRecord) : ℚ :=
  pyclip (((records.map fun r => (r.reps / 30) * (1 / max 1 r.sets) * r.sets).sum)
      / records.length) 0 (3/2)

/-! ## Subjective-scale mapping -/

/-- A value fed to `_map_sepa_to_numeric`: `NaN`/missing, a number, or a
string. -/
inductive SepaValue where
  | missing
  | num (q : ℚ)
  | str (s : String)

/-- The string-lookup tail of `V4DataCleaner._map_sepa_to_numeric`: strip
the value, try an exact key match, then scan the table case-insensitively,
else return the default. -/
def sepaLookupList (mapping : List (String × ℤ)) (s : String) (dflt : ℤ) : ℤ :=
  let t := trimChars s.data
  match mapping.find? (fun kv => kv.1.data == t) with
  | some kv => kv.2
  | none =>
    match mapping.find? (fun kv => kv.1.data.map Char.toLower == t.map Char.toLower) with
    | some kv => kv.2
    | none => dflt

/-- Model of `V4DataCleaner._map_sepa_to_numeric` (`data_cleaning_v4.py:393`):
missing → default; otherwise try `int(float(value))` (truncation) and pass
the truncated value through when it lies in `1..5`; otherwise, strings are
looked up in the table; everything else gets the default. -/
def mapSepaToNumeric (value : SepaValue) (mapping : List (String × ℤ)) (dflt : ℤ) : ℤ :=
  match value with
  | .missing => dflt
  | .num q =>
    let n := pytrunc q
    if 1 ≤ n ∧ n ≤ 5 then n else dflt
  | .str s =>
    match pyFloatChars s.data with
    | some q =>
      let n := pytrunc q
      if 1 ≤ n ∧ n ≤ 5 then n else sepaLookupList mapping s dflt
    | none => sepaLookupList mapping s dflt

/-- Table `SEPA_MAPPINGS['mood']` (`data_cleaning_v4.py:78`). -/
def moodMappingV4 : List (String × ℤ) :=
  [("Very Bad", 1), ("Bad", 2), ("Neutral", 3), ("Good", 4),
   ("Very Good", 5), ("Excellent", 5)]

/-- Table `SEPA_MAPPINGS['fatigue']` (`data_cleaning_v4.py:83`). -/
def fatigueMappingV4 : List (String × ℤ) :=
  [("Very Low", 1), ("Low", 2), ("Medium", 3), ("High", 4), ("Very High", 5)]

/-- The lookup table of the serving-layer `_map_sepa_to_numeric`
(`recommendation_v4.py:75`). -/
def servingSepaPairs : List (String × ℤ) :=
  [("very bad", 1), ("bad", 2), ("neutral", 3), ("good", 4), ("very good", 5),
   ("excellent", 5), ("very low", 1), ("low", 2), ("medium", 3), ("high", 4),
   ("very high", 5), ("beginner", 1), ("intermediate", 2), ("advanced", 3),
   ("pro", 4), ("expert", 4), ("male", 1), ("female", 0), ("other", 0)]

/-- The serving-layer `_map_sepa_to_numeric` (`recommendation_v4.py:75`):
`mapping.get(str(value).lower(), 3)` — a bare lowercase lookup with
default `3` and no numeric pass-through. -/
def mapSepaServing (value : String) : ℤ :=
  match servingSepaPairs.find? (fun kv => kv.1.data == value.data.map Char.toLower) with
  | some kv => kv.2
  | none => 3

/-! ## Readiness estimation -/

/-- Model of `V4DataCleaner._calculate_readiness_factor_v4`
(`data_cleaning_v4.py:417`). -/
def calcReadinessFactorV4 (mood fatigue effort : ℚ) : ℚ :=
  let moodAdj := if 5 ≤ mood then 1/10 else if mood ≤ 2 then -(1/10) else (mood - 3) * (5/100)
  let fatigueAdj := if 4 ≤ fatigue then -(12/100) else if fatigue ≤ 2 then 8/100
    else (3 - fatigue) * (4/100)
  let effortAdj := if 5 ≤ effort then -(3/100) else if effort ≤ 2 then 5/100 else 0
  pyclip (1 + moodAdj + fatigueAdj + effortAdj) (6/10) (13/10)

/-! ## Suitability classification -/

/-- Model of `SuitabilityClassifier.get_score_range` (`evaluate_v4_model.py:91`):
category, description and range midpoint. -/
def getScoreRange (score : ℚ) : String × String × ℚ :=
  if 95/100 ≤ score then ("Perfect Fit", "Tối ưu cá nhân hóa", 975/1000)
  else if 85/100 ≤ score then ("Very Good", "Rất hiệu quả", 9/10)
  else if 75/100 ≤ score then ("Good", "Hiệu quả tốt", 8/10)
  else if 6/10 ≤ score then ("Moderate", "Đúng nhóm cơ nhưng sai cường độ", 675/1000)
  else if 4/10 ≤ score then ("Low", "Tác động sai hoặc phụ trợ yếu", 1/2)
  else ("Ineffective", "Không hiệu quả / Không đạt mục tiêu", 2/10)

/-- Model of `SuitabilityClassifier.get_action_recommendation`
(`evaluate_v4_model.py:115`). -/
def getActionRecommendationV4 (score : ℚ) : String :=
  if 95/100 ≤ score then "🟣 LOCK-IN: Bài tập này làm bài tập chính cho kế hoạch tương lai"
  else if 85/100 ≤ score then "🔵 RECOMMEND: Bài tập 'signature' - đề xuất thường xuyên"
  else if 75/100 ≤ score then "🟢 KEEP: Giữ trong chương trình - ưu tiên cao"
  else if 6/10 ≤ score then "🟡 ADJUST: Cần điều chỉnh reps/sets/weight để tối ưu"
  else if 4/10 ≤ score then "⚠️ SUPPORT: Có thể dùng làm bài tập hỗ trợ/khởi động"
  else "❌ REMOVE: Loại bỏ hoặc thay bằng bài tương tự"

/-- The 1:1 category → action pairing the classifier realises (both ladders
use the same thresholds, so the action is a function of the category). -/
def actionOfCategory (cat : String) : String :=
  if cat = "Perfect Fit" then "🟣 LOCK-IN: Bài tập này làm bài tập chính cho kế hoạch tương lai"
  else if cat = "Very Good" then "🔵 RECOMMEND: Bài tập 'signature' - đề xuất thường xuyên"
  else if cat = "Good" then "🟢 KEEP: Giữ trong chương trình - ưu tiên cao"
  else if cat = "Moderate" then "🟡 ADJUST: Cần điều chỉnh reps/sets/weight để tối ưu"
  else if cat = "Low" then "⚠️ SUPPORT: Có thể dùng làm bài tập hỗ trợ/khởi động"
  else "❌ REMOVE: Loại bỏ hoặc thay bằng bài tương tự"

/-! ## Workout decoding -/

/-- One row of `WORKOUT_GOAL_MAPPING_V4` (`evaluate_v4_model.py:51`). -/
structure GoalRules where
  ipMin : ℚ
  ipMax : ℚ
  repMin : ℤ
  repMax : ℤ
  setsMin : ℤ
  setsMax : ℤ
  restMin : ℚ
  restMax : ℚ
  descr : String
  tsMin : ℚ
  tsMax : ℚ
deriving DecidableEq, Repr

/-- The `general_fitness` row of `WORKOUT_GOAL_MAPPING_V4`. -/
def generalFitnessRules : GoalRules :=
  ⟨6/10, 75/100, 10, 30, 1, 5, 1, 2, "General Fitness - Balanced approach", 6/10, 95/100⟩

/-- Table `WORKOUT_GOAL_MAPPING_V4` (`evaluate_v4_model.py:51`), keyed by goal;
`none` for a goal not in the dict. -/
def workoutGoalMappingV4 (goal : String) : Option GoalRules :=
  if goal = "strength" then
    some ⟨85/100, 95/100, 5, 15, 1, 5, 3, 5, "Strength Training - Heavy loads, low reps", 75/100, 1⟩
  else if goal = "hypertrophy" then
    some ⟨7/10, 8/10, 8, 20, 1, 5, 1, 2, "Hypertrophy - Moderate loads, medium reps", 75/100, 1⟩
  else if goal = "endurance" then
    some ⟨1/2, 6/10, 10, 30, 1, 5, 1/2, 1, "Endurance - Light loads, high reps", 6/10, 1⟩
  else if goal = "general_fitness" then some generalFitnessRules
  else none

/-- The goal key used after the unknown-goal fallback at the top of
`decode_intensity_to_workout`. -/
def goalAfterFallback (goal : String) : String :=
  match workoutGoalMappingV4 goal with
  | some _ => goal
  | none => "general_fitness"

/-- The rule row `decode_intensity_to_workout` operates on. -/
def rulesFor (goal : String) : GoalRules :=
  match workoutGoalMappingV4 (goalAfterFallback goal) with
  | some r => r
  | none => generalFitnessRules

/-- The output dict of `decode_intensity_to_workout` (the fields the claims
are about; `target_suitability_range` is carried in `tsMin`/`tsMax`). -/
structure Prescription where
  predicted1rm : ℚ
  adjusted1rm : ℚ
  readiness : ℚ
  goal : String
  weightMin : ℚ
  weightMax : ℚ
  weightRec : ℚ
  repMin : ℤ
  repMax : ℤ
  repRec : ℤ
  setsMin : ℤ
  setsMax : ℤ
  setsRec : ℤ
  restMin : ℚ
  restMax : ℚ
  restRec : ℚ
  descr : String
  tsMin : ℚ
  tsMax : ℚ
deriving DecidableEq, Repr

/-- Model of `V4ModelEvaluator.decode_intensity_to_workout`
(`evaluate_v4_model.py:531`): unknown goals fall back to
`general_fitness`; `adjusted_1rm = predicted_1rm * readiness_factor`; the
weight range scales the intensity-percent range by `adjusted_1rm`;
`readiness > 1.1` picks `int(midpoint*0.8)` reps, max sets, min rest;
`readiness < 0.9` picks `int(midpoint*1.2)` reps, min sets, max rest;
otherwise the `//2` midpoints (and `/2` for rest).  `round(·, 2)` /
`round(·, 3)` are applied exactly where the source does. -/
def decodeIntensityToWorkout (predicted1rm : ℚ) (goal : String) (readiness : ℚ) :
    Prescription :=
  let g := goalAfterFallback goal
  let rules := rulesFor goal
  let adjusted := predicted1rm * readiness
  let wMin := adjusted * rules.ipMin
  let wMax := adjusted * rules.ipMax
  let sel : ℤ × ℤ × ℚ :=
    if 11/10 < readiness then
      (pytrunc (((rules.repMin + rules.repMax : ℤ) : ℚ) / 2 * (8/10)),
       rules.setsMax, rules.restMin)
    else if readiness < 9/10 then
      (pytrunc (((rules.repMin + rules.repMax : ℤ) : ℚ) / 2 * (12/10)),
       rules.setsMin, rules.restMax)
    else
      (Int.fdiv (rules.repMin + rules.repMax) 2,
       Int.fdiv (rules.setsMin + rules.setsMax) 2,
       (rules.restMin + rules.restMax) / 2)
  { predicted1rm := round2 predicted1rm
    adjusted1rm := round2 adjusted
    readiness := round3 readiness
    goal := g
    weightMin := round2 wMin
    weightMax := round2 wMax
    weightRec := round2 ((wMin + wMax) / 2)
    repMin := rules.repMin
    repMax := rules.repMax
    repRec := sel.1
    setsMin := rules.setsMin
    setsMax := rules.setsMax
    setsRec := sel.2.1
    restMin := rules.restMin
    restMax := rules.restMax
    restRec := sel.2.2
    descr := rules.descr
    tsMin := rules.tsMin
    tsMax := rules.tsMax }

/-! ## Serving-layer recommendation filtering -/

/-- An exercise candidate as `recommend_v4` consumes it (identity only;
the numeric features feed the black-box model). -/
structure RecCandidate where
  id : String
  name : String
deriving DecidableEq, Repr

/-- One `RecommendationItem` (`schemas_v4.py`), the fields `recommend_v4`
computes from a candidate and its predicted scores. -/
structure RecItem where
  exerciseId : String
  exerciseName : String
  predictedRpe : ℚ
  suitabilityScore : ℚ
deriving DecidableEq, Repr

/-- The filter/build loop of `recommend_v4` (`recommendation_v4.py:222`):
a candidate with model outputs `(rpe, score)` yields an item exactly when
`score > 0.4`; the item stores `round(rpe,1)` and `round(score,3)`. -/
def buildRecItems (xs : List (RecCandidate × ℚ × ℚ)) : List RecItem :=
  xs.filterMap fun crs =>
    if 4/10 < crs.2.2 then
      some ⟨crs.1.id, crs.1.name, round1 crs.2.1, round3 crs.2.2⟩
    else none

/-- Stable descending insertion by `suitability_score` (the effect of
`recommendations.sort(key=..., reverse=True)` with Python's stable sort). -/
def insertRecDesc (item : RecItem) : List RecItem → List RecItem
  | [] => [item]
  | h :: t =>
    if item.suitabilityScore ≤ h.suitabilityScore then h :: insertRecDesc item t
    else item :: h :: t

/-- The sort step of `recommend_v4` (step 6 in the source). -/
def sortRecsDesc (l : List RecItem) : List RecItem := l.foldr insertRecDesc []

/-- The candidate-selection core of `recommend_v4`
(`recommendation_v4.py:174`): build items for the candidates scoring
strictly above `0.4`, sort by suitability score descending, truncate to
`top_k`.  The scores come from the black-box model, so they are inputs
here. -/
def recommendV4Core (xs : List (RecCandidate × ℚ × ℚ)) (topK : ℕ) : List RecItem :=
  (sortRecsDesc (buildRecItems xs)).take topK

/-- The five documented coefficient ranges (`INTENSITY_RANGES` lists
`resistance (0.1,2)` for the post-hoc column clamp; the calculator itself
clips to `[0,2]`, and both are inside the claimed `[0,2]`). -/
def coeffsInRanges (c : Coeffs) : Prop :=
  (0 ≤ c.resistance_intensity ∧ c.resistance_intensity ≤ 2)
  ∧ (0 ≤ c.cardio_intensity ∧ c.cardio_intensity ≤ 3/2)
  ∧ (0 ≤ c.volume_load ∧ c.volume_load ≤ 1)
  ∧ (0 ≤ c.rest_density ∧ c.rest_density ≤ 1)
  ∧ (1/2 ≤ c.tempo_factor ∧ c.tempo_factor ≤ 3/2)

/-! ## Helper lemmas -/

lemma pyclip_le_right (x lo hi : ℚ) : pyclip x lo hi ≤ hi := min_le_left _ _

lemma left_le_pyclip (x lo hi : ℚ) (h : lo ≤ hi) : lo ≤ pyclip x lo hi :=
  le_min h (le_max_left _ _)

lemma processGo_no_record (u p : ℚ) :
    ∀ segs : List (List Char),
      (∀ seg ∈ segs, ∀ r, parseSegment seg ≠ .ok (some r)) →
      processGo u p segs = .error () ∨ processGo u p segs = .ok ⟨0, 0, 0, 0, 0⟩ := by
  intro segs
  induction segs with
  | nil => intro _; exact Or.inr rfl
  | cons seg rest ih =>
    intro h
    cases hps : parseSegment seg with
    | error e => left; simp [processGo, hps]
    | ok o =>
      cases o with
      | none =>
        have := ih fun t ht r hr => h t (List.mem_cons_of_mem _ ht) r hr
        simpa [processGo, hps] using this
      | some r => exact absurd hps (h seg (List.mem_cons_self _ _) r)

/-! ## Claims -/

/-- Claim C5: the readiness estimate over the 1–5 scales equals the
base `1.0` plus the three piecewise adjustments, clamped to `[0.6, 1.3]`,
and `estimate(5,1,3) = 1.18`. -/
theorem readiness_rule_table (m f e : ℚ)
    (hm : m ∈ ({1, 2, 3, 4, 5} : Set ℚ)) (hf : f ∈ ({1, 2, 3, 4, 5} : Set ℚ))
    (he : e ∈ ({1, 2, 3, 4, 5} : Set ℚ)) :
    calcReadinessFactorV4 m f e =
      pyclip (1 + (if 5 ≤ m then 1/10 else if m ≤ 2 then -(1/10) else (m - 3) * (5/100))
        + (if 4 ≤ f then -(12/100) else if f ≤ 2 then 8/100 else (3 - f) * (4/100))
        + (if 5 ≤ e then -(3/100) else if e ≤ 2 then 5/100 else 0)) (6/10) (13/10)
    ∧ 6/10 ≤ calcReadinessFactorV4 m f e ∧ calcReadinessFactorV4 m f e ≤ 13/10
    ∧ calcReadinessFactorV4 5 1 3 = 118/100 := by
  refine ⟨rfl, left_le_pyclip _ _ _ (by norm_num), pyclip_le_right _ _ _, ?_⟩
  norm_num [calcReadinessFactorV4, pyclip]

/-- Witness for C5 at `(mood, fatigue, effort) = (5, 1, 3)`. -/
theorem readiness_rule_table_w : calcReadinessFactorV4 5 1 3 = 118/100 :=
  (readiness_rule_table 5 1 3 (by norm_num) (by norm_num) (by norm_num)).2.2.2

/-- Claim C4: The classifier is total on `[0,1]` with the six ordered bands
(the `0.4` boundary inclusive), the action is a function of the category
(1:1 pairing), `classify(0.76)` is Good/KEEP and `classify(0.4)` is
Low/SUPPORT. -/
theorem suitability_bands_pairing (s : ℚ) (h0 : 0 ≤ s) (h1 : s ≤ 1) :
    ((95/100 ≤ s → (getScoreRange s).1 = "Perfect Fit")
      ∧ (85/100 ≤ s → s < 95/100 → (getScoreRange s).1 = "Very Good")
      ∧ (75/100 ≤ s → s < 85/100 → (getScoreRange s).1 = "Good")
      ∧ (6/10 ≤ s → s < 75/100 → (getScoreRange s).1 = "Moderate")
      ∧ (4/10 ≤ s → s < 6/10 → (getScoreRange s).1 = "Low")
      ∧ (s < 4/10 → (getScoreRange s).1 = "Ineffective"))
    ∧ getActionRecommendationV4 s = actionOfCategory (getScoreRange s).1
    ∧ (getScoreRange (76/100)).1 = "Good"
    ∧ getActionRecommendationV4 (76/100) = "🟢 KEEP: Giữ trong chương trình - ưu tiên cao"
    ∧ (getScoreRange (4/10)).1 = "Low"
    ∧ getActionRecommendationV4 (4/10) = "⚠️ SUPPORT: Có thể dùng làm bài tập hỗ trợ/khởi động" := by
  refine ⟨⟨?_, ?_, ?_, ?_, ?_, ?_⟩, ?_, ?_, ?_, ?_, ?_⟩
  · intro h; unfold getScoreRange; split_ifs <;> first | rfl | linarith
  · intro h h'; unfold getScoreRange; split_ifs <;> first | rfl | linarith
  · intro h h'; unfold getScoreRange; split_ifs <;> first | rfl | linarith
  · intro h h'; unfold getScoreRange; split_ifs <;> first | rfl | linarith
  · intro h h'; unfold getScoreRange; split_ifs <;> first | rfl | linarith
  · intro h; unfold getScoreRange; split_ifs <;> first | rfl | linarith
  · unfold getActionRecommendationV4 getScoreRange; split_ifs <;> rfl
  · norm_num [getScoreRange]
  · norm_num [getActionRecommendationV4]
  · norm_num [getScoreRange]
  · norm_num [getActionRecommendationV4]

/-- Witness for C4 at score `0.76`. -/
theorem suitability_bands_pairing_w :
    (getScoreRange (76/100)).1 = "Good"
    ∧ getActionRecommendationV4 (76/100) = "🟢 KEEP: Giữ trong chương trình - ưu tiên cao" :=
  ⟨(suitability_bands_pairing (76/100) (by norm_num) (by norm_num)).2.2.1,
   (suitability_bands_pairing (76/100) (by norm_num) (by norm_num)).2.2.2.1⟩

/-- Claim C8: For all valid inputs, every coefficient `process_exercise_data`
returns lies inside its documented closed interval; out-of-range computed
values are clamped, not raised. -/
theorem intensity_coefficient_bounds (w : Option String) (u1rm pace : ℚ)
    (h1 : 0 < u1rm) (h2 : 0 < pace) :
    coeffsInRanges (processExerciseData w u1rm pace) := by
  have hdef : coeffsInRanges defaultCoeffs := by
    norm_num [coeffsInRanges, defaultCoeffs]
  have htempo : 1/2 ≤ calcTempoFactor 2 1 0 ∧ calcTempoFactor 2 1 0 ≤ 3/2 := by
    norm_num [calcTempoFactor, pyclip]
  have hfin : ∀ (n : ℕ) (res : Except Unit PTotals), coeffsInRanges (finishProcess n res) := by
    intro n res
    cases res with
    | error e => exact hdef
    | ok t =>
      by_cases hw : 0 < t.work
      · rw [finishProcess, if_pos hw]
        exact ⟨⟨left_le_pyclip _ _ _ (by norm_num), pyclip_le_right _ _ _⟩,
          ⟨left_le_pyclip _ _ _ (by norm_num), pyclip_le_right _ _ _⟩,
          ⟨left_le_pyclip _ _ _ (by norm_num), pyclip_le_right _ _ _⟩,
          ⟨left_le_pyclip _ _ _ (by norm_num), pyclip_le_right _ _ _⟩,
          htempo.1, htempo.2⟩
      · rw [finishProcess, if_neg hw]; exact hdef
  cases w with
  | none => exact hdef
  | some s =>
    by_cases hs : s = ""
    · simpa [processExerciseData, hs] using hdef
    · simpa [processExerciseData, hs] using hfin _ _

/-- Witness for C8 at `("10x50x3", 100, 1)`. -/
theorem intensity_coefficient_bounds_w :
    coeffsInRanges (processExerciseData (some "10x50x3") 100 1) :=
  intensity_coefficient_bounds (some "10x50x3") 100 1 (by norm_num) (by norm_num)

/-- Claim C9: On an empty, missing, or entirely invalid workout string,
`process_exercise_data` returns the default coefficients
`(0, 0, 0, 0.3, 1.0)` for any `estimated_1rm` and `max_pace`, without
failing. -/
theorem empty_input_defaults (u1rm pace : ℚ) :
    processExerciseData none u1rm pace = defaultCoeffs
    ∧ processExerciseData (some "") u1rm pace = defaultCoeffs
    ∧ ∀ s : String,
        (∀ seg ∈ splitChar '|' s.data, ∀ r, parseSegment seg ≠ .ok (some r)) →
        processExerciseData (some s) u1rm pace = defaultCoeffs := by
  refine ⟨rfl, by simp [processExerciseData], ?_⟩
  intro s h
  by_cases hs : s = ""
  · simp [processExerciseData, hs]
  · rcases processGo_no_record u1rm pace _ h with herr | hok
    · simp [processExerciseData, hs, herr, finishProcess]
    · simp [processExerciseData, hs, hok, finishProcess]

/-- Witness for C9 at the entirely invalid string `"0x50x3"`. -/
theorem empty_input_defaults_w :
    processExerciseData (some "0x50x3") 100 1 = defaultCoeffs :=
  (empty_input_defaults 100 1).2.2 "0x50x3" (by
    simp +decide [parseSegment, pyFloatChars, trimChars, splitChar, decMantissa,
      digitsToNat])

lemma parseSegsGo_eq_filterMap :
    ∀ segs : List (List Char),
      (∀ seg ∈ segs, parseSegment seg ≠ .error ()) →
      parseSegsGo segs = segs.filterMap segRecord := by
  intro segs
  induction segs with
  | nil => intro _; rfl
  | cons seg rest ih =>
    intro h
    have hrest := ih fun t ht => h t (List.mem_cons_of_mem _ ht)
    cases hps : parseSegment seg with
    | error e => exact absurd hps (h seg (List.mem_cons_self _ _))
    | ok o =>
      cases o with
      | none => simp [parseSegsGo, hps, List.filterMap_cons, segRecord, hrest]
      | some r => simp [parseSegsGo, hps, List.filterMap_cons, segRecord, hrest]

lemma parseSegsGo_error_cut :
    ∀ (pre : List (List Char)) (seg : List Char) (post : List (List Char)),
      (∀ t ∈ pre, parseSegment t ≠ .error ()) →
      parseSegment seg = .error () →
      parseSegsGo (pre ++ seg :: post) = pre.filterMap segRecord := by
  intro pre
  induction pre with
  | nil =>
    intro seg post _ hseg
    simp [parseSegsGo, hseg]
  | cons t pre' ih =>
    intro seg post hpre hseg
    have hpre' := fun u hu => hpre u (List.mem_cons_of_mem _ hu)
    cases hpt : parseSegment t with
    | error e => exact absurd hpt (hpre t (List.mem_cons_self _ _))
    | ok o =>
      cases o with
      | none =>
        simp [parseSegsGo, hpt, List.filterMap_cons, segRecord, ih seg post hpre' hseg]
      | some r =>
        simp [parseSegsGo, hpt, List.filterMap_cons, segRecord, ih seg post hpre' hseg]

/-- Claim C1, counterexample: The claim says a segment failing the numeric
parse is dropped independently, leaving every other well-formed segment.
On `"abcx50x3|10x50x3"` the parser's `try` wraps the whole loop, so the
`float("abc")` failure also drops the well-formed second segment: the code
returns `[]`, not `[(10,50,3)]`. -/
theorem parse_not_independent_cx :
    parseWorkoutData "abcx50x3|10x50x3" = []
    ∧ parseWorkoutIndependent "abcx50x3|10x50x3" = [⟨10, 50, 3⟩]
    ∧ parseWorkoutData "abcx50x3|10x50x3" ≠ parseWorkoutIndependent "abcx50x3|10x50x3" := by
  refine ⟨?_, ?_, ?_⟩
  · simp +decide [parseWorkoutData, parseSegsGo, parseSegment, pyFloatChars,
      trimChars, splitChar, decMantissa, digitsToNat]
  · simp +decide [parseWorkoutIndependent, segRecord, parseSegment, pyFloatChars,
      trimChars, splitChar, decMantissa, digitsToNat, List.filterMap_cons]
  · simp +decide [parseWorkoutData, parseWorkoutIndependent, segRecord,
      parseSegsGo, parseSegment, pyFloatChars, trimChars, splitChar,
      decMantissa, digitsToNat, List.filterMap_cons]

/-- Claim C1, amended: the parser `_parse_workout_data` splits on `'|'` and processes
segments left to right; segments with fewer than two `'x'`-parts or a
field `≤ 0` are dropped silently and independently; but a segment whose
parts fail the numeric parse raises, ending the parse: the records built
so far are kept and that segment plus all later segments are dropped.
When no segment raises, the parse agrees with the fully independent-drop
parser, and the two spec scenarios hold. -/
theorem parse_amended_behavior :
    (∀ s : String,
      (∀ seg ∈ splitChar '|' s.data, parseSegment seg ≠ .error ()) →
      parseWorkoutData s = parseWorkoutIndependent s)
    ∧ (∀ (s : String) (pre : List (List Char)) (seg : List Char) (post : List (List Char)),
        splitChar '|' s.data = pre ++ seg :: post →
        (∀ t ∈ pre, parseSegment t ≠ .error ()) →
        parseSegment seg = .error () →
        parseWorkoutData s = pre.filterMap segRecord)
    ∧ parseWorkoutData "10x50x3|8x60x2" = [⟨10, 50, 3⟩, ⟨8, 60, 2⟩]
    ∧ parseWorkoutData "0x50x3|10x-5x2" = [] := by
  refine ⟨?_, ?_, ?_, ?_⟩
  · intro s h
    exact parseSegsGo_eq_filterMap _ h
  · intro s pre seg post hsplit hpre hseg
    rw [parseWorkoutData, hsplit]
    exact parseSegsGo_error_cut pre seg post hpre hseg
  · simp +decide [parseWorkoutData, parseSegsGo, parseSegment, pyFloatChars,
      trimChars, splitChar, decMantissa, digitsToNat]
  · simp +decide [parseWorkoutData, parseSegsGo, parseSegment, pyFloatChars,
      trimChars, splitChar, decMantissa, digitsToNat]

/-- Witness for C1 (amended) on an error-free input string. -/
theorem parse_amended_behavior_w :
    parseWorkoutData "10x50x3|8x60x2" = parseWorkoutIndependent "10x50x3|8x60x2" :=
  (parse_amended_behavior).1 "10x50x3|8x60x2" (by
    simp +decide [parseSegment, pyFloatChars, trimChars, splitChar, decMantissa,
      digitsToNat])

lemma foldl_cleanStep_sum (est : ℚ) (hest : 0 < est) :
    ∀ (records : List ExRecord) (t0 : CleanTotals),
      (∀ r ∈ records, 0 < r.reps ∧ 0 < r.weight ∧ 0 < r.sets) →
      records.foldl (cleanStep est) t0 =
        ⟨t0.volume + (records.map fun r => r.weight * r.reps * r.sets).sum,
         t0.resistance + (records.map fun r => (r.weight * r.reps) / (est * 10) * r.sets).sum,
         t0.cardio + (records.map fun r => (r.reps / 30) * (1 / max 1 r.sets) * r.sets).sum,
         t0.work + (records.map fun r => r.reps * r.sets * 4).sum,
         t0.rest + (records.map fun r => r.sets * 120).sum⟩ := by
  intro records
  induction records with
  | nil => intro t0 _; cases t0; simp
  | cons r rs ih =>
    intro t0 h
    obtain ⟨h1, h2, h3⟩ := h r (List.mem_cons_self _ _)
    have hcond : ¬(r.reps ≤ 0 ∨ r.weight ≤ 0 ∨ r.sets ≤ 0) := by
      push_neg
      exact ⟨h1, h2, h3⟩
    have hstep : cleanStep est t0 r =
        ⟨t0.volume + r.weight * r.reps * r.sets,
         t0.resistance + (r.weight * r.reps) / (est * 10) * r.sets,
         t0.cardio + (r.reps / 30) * (1 / max 1 r.sets) * r.sets,
         t0.work + r.reps * r.sets * 4,
         t0.rest + r.sets * 120⟩ := by
      simp only [cleanStep, if_neg hcond, if_neg (not_le.mpr hest)]
    rw [List.foldl_cons, hstep, ih _ (fun t ht => h t (List.mem_cons_of_mem _ ht))]
    simp only [CleanTotals.mk.injEq, List.map_cons, List.sum_cons]
    exact ⟨by ring, by ring, by ring, by ring, by ring⟩

lemma mapped_sum_pos {records : List ExRecord} {f : ExRecord → ℚ}
    (hne : records ≠ []) (hpos : ∀ r ∈ records, 0 < f r) :
    0 < (records.map f).sum := by
  cases records with
  | nil => exact absurd rfl hne
  | cons r rs =>
    rw [List.map_cons, List.sum_cons]
    have hhead : 0 < f r := hpos r (List.mem_cons_self _ _)
    have htail : 0 ≤ (rs.map f).sum := by
      refine List.sum_nonneg ?_
      intro x hx
      obtain ⟨t, ht, rfl⟩ := List.mem_map.mp hx
      exact le_of_lt (hpos t (List.mem_cons_of_mem _ ht))
    linarith

lemma mapped_sum_nonneg {records : List ExRecord} {f : ExRecord → ℚ}
    (hpos : ∀ r ∈ records, 0 ≤ f r) :
    0 ≤ (records.map f).sum := by
  refine List.sum_nonneg ?_
  intro x hx
  obtain ⟨t, ht, rfl⟩ := List.mem_map.mp hx
  exact hpos t ht

lemma cleanCoeffs_fields (records : List ExRecord) (est : ℚ) (prev : Coeffs)
    (jitter : ℚ) (hest : 0 < est) (hne : records ≠ [])
    (hval : ∀ r ∈ records, 0 < r.reps ∧ 0 < r.weight ∧ 0 < r.sets) :
    (cleanCoeffs records est prev jitter).resistance_intensity
      = min 2 ((records.map fun r => (r.weight * r.reps) / (est * 10) * r.sets).sum
          / (records.length : ℚ))
    ∧ (cleanCoeffs records est prev jitter).cardio_intensity
      = min (3/2) ((records.map fun r => (r.reps / 30) * (1 / max 1 r.sets) * r.sets).sum
          / (records.length : ℚ)) := by
  have hfold := foldl_cleanStep_sum est hest records ⟨0, 0, 0, 0, 0⟩ hval
  have hvol : 0 < (records.map fun r => r.weight * r.reps * r.sets).sum :=
    mapped_sum_pos hne fun r hr => by
      obtain ⟨h1, h2, h3⟩ := hval r hr
      exact mul_pos (mul_pos h2 h1) h3
  have hwork : 0 < (records.map fun r => r.reps * r.sets * 4).sum :=
    mapped_sum_pos hne fun r hr => by
      obtain ⟨h1, h2, h3⟩ := hval r hr
      have h4 : (0:ℚ) < 4 := by norm_num
      exact mul_pos (mul_pos h1 h3) h4
  have hlen : ((max 1 records.length : ℕ) : ℚ) = (records.length : ℚ) := by
    have h1 : 1 ≤ records.length := List.length_pos.mpr hne
    rw [max_eq_right h1]
  constructor <;> simp [cleanCoeffs, hfold, hvol, hwork, hlen]

/-- Claim C7: The per-record resistance coefficient is
`(weight*reps)/(estimated_1rm*10)`, accumulated as `Σ resistance_i*sets_i`
over the records, divided by the record count, capped at `2` (the computed
value is nonnegative, so it lies in `[0,2]`); on
`[(10,50,3)]` with `estimated_1rm = 100` both the data-cleaning pipeline
and `process_exercise_data` yield `1.5`. -/
theorem resistance_aggregation (records : List ExRecord) (est : ℚ) (prev : Coeffs)
    (jitter : ℚ) (hest : 0 < est) (hne : records ≠ [])
    (hval : ∀ r ∈ records, 0 < r.reps ∧ 0 < r.weight ∧ 0 < r.sets) :
    (cleanCoeffs records est prev jitter).resistance_intensity
      = min 2 ((records.map fun r => (r.weight * r.reps) / (est * 10) * r.sets).sum
          / (records.length : ℚ))
    ∧ 0 ≤ (cleanCoeffs records est prev jitter).resistance_intensity
    ∧ (cleanCoeffs records est prev jitter).resistance_intensity ≤ 2
    ∧ (cleanCoeffs [⟨10, 50, 3⟩] 100 prev jitter).resistance_intensity = 3/2
    ∧ (processExerciseData (some "10x50x3") 100 1).resistance_intensity = 3/2 := by
  obtain ⟨hres, _⟩ := cleanCoeffs_fields records est prev jitter hest hne hval
  have hnonneg : 0 ≤ (records.map fun r => (r.weight * r.reps) / (est * 10) * r.sets).sum :=
    mapped_sum_nonneg fun r hr => by
      obtain ⟨h1, h2, h3⟩ := hval r hr
      have : 0 ≤ (r.weight * r.reps) / (est * 10) := by positivity
      exact mul_nonneg this (le_of_lt h3)
  refine ⟨hres, ?_, ?_, ?_, ?_⟩
  · rw [hres]
    exact le_min (by norm_num) (div_nonneg hnonneg (Nat.cast_nonneg _))
  · rw [hres]; exact min_le_left _ _
  · norm_num [cleanCoeffs, cleanStep, List.foldl_cons, List.foldl_nil,
      max_eq_right (show (1:ℚ) ≤ 3 by norm_num), max_self]
  · simp +decide [processExerciseData, finishProcess, processGo, parseSegment,
      pyFloatChars, trimChars, splitChar, decMantissa, digitsToNat,
      calcResistanceIntensity, calcCardioIntensity, calcVolumeLoad,
      calcTempoFactor, pyclip]
    all_goals norm_num

/-- Witness for C7 at the single-record list `[(10,50,3)]`. -/
theorem resistance_aggregation_w :
    (cleanCoeffs [⟨10, 50, 3⟩] 100 defaultCoeffs 1).resistance_intensity = 3/2 :=
  (resistance_aggregation [⟨10, 50, 3⟩] 100 defaultCoeffs 1 (by norm_num)
    (by simp) (by norm_num)).2.2.2.1

/-- Claim C2, counterexample: The claim attributes the formula
`(reps/30)*(1/max(1,sets))` to the calculator's compute; but
`process_exercise_data` computes cardio as `distance/(time*max_pace)` with
`distance := weight` and `time := reps*4`.  On the single record
`(10,50,3)` with `max_pace = 1` the code yields `1.5` (clipped from
`3.75`), while the claimed formula yields `1/3`. -/
theorem cardio_formula_cx :
    (processExerciseData (some "10x50x3") 100 1).cardio_intensity = 3/2
    ∧ cardioPerClaim [⟨10, 50, 3⟩] = 1/3
    ∧ (processExerciseData (some "10x50x3") 100 1).cardio_intensity
        ≠ cardioPerClaim [⟨10, 50, 3⟩] := by
  have h1 : (processExerciseData (some "10x50x3") 100 1).cardio_intensity = 3/2 := by
    simp +decide [processExerciseData, finishProcess, processGo, parseSegment,
      pyFloatChars, trimChars, splitChar, decMantissa, digitsToNat,
      calcResistanceIntensity, calcCardioIntensity, calcVolumeLoad,
      calcTempoFactor, pyclip]
    all_goals norm_num
  have h2 : cardioPerClaim [⟨10, 50, 3⟩] = 1/3 := by
    norm_num [cardioPerClaim, pyclip]
  refine ⟨h1, h2, ?_⟩
  rw [h1, h2]
  norm_num

/-- Claim C2, amended: the formula `(reps/30)*(1/max(1,sets))`, accumulated
as `Σ cardio_i*sets_i`, divided by the record count and capped at `1.5`,
is the cardio coefficient of the *data-cleaning* pipeline
(`calculate_intensity_coefficients`); the calculator class's
`process_exercise_data` instead uses `calculate_cardio_intensity` =
`distance/(time*max_pace)` with `distance := weight`, `time := reps*4`,
yielding `1.5` on the spec's scenario input. -/
theorem cardio_amended_location (records : List ExRecord) (est : ℚ) (prev : Coeffs)
    (jitter : ℚ) (hest : 0 < est) (hne : records ≠ [])
    (hval : ∀ r ∈ records, 0 < r.reps ∧ 0 < r.weight ∧ 0 < r.sets) :
    (cleanCoeffs records est prev jitter).cardio_intensity
      = min (3/2) ((records.map fun r => (r.reps / 30) * (1 / max 1 r.sets) * r.sets).sum
          / (records.length : ℚ))
    ∧ (∀ d t p : ℚ, 0 < d → 0 < t → 0 < p → calcCardioIntensity d t p = d / (t * p))
    ∧ (cleanCoeffs [⟨10, 50, 3⟩] 100 prev jitter).cardio_intensity = 1/3
    ∧ (processExerciseData (some "10x50x3") 100 1).cardio_intensity = 3/2 := by
  obtain ⟨_, hcard⟩ := cleanCoeffs_fields records est prev jitter hest hne hval
  refine ⟨hcard, ?_, ?_, ?_⟩
  · intro d t p hd ht hp
    rw [calcCardioIntensity, if_neg]
    push_neg
    exact ⟨hp, ht, hd⟩
  · norm_num [cleanCoeffs, cleanStep, List.foldl_cons, List.foldl_nil,
      max_eq_right (show (1:ℚ) ≤ 3 by norm_num), max_self]
  · simp +decide [processExerciseData, finishProcess, processGo, parseSegment,
      pyFloatChars, trimChars, splitChar, decMantissa, digitsToNat,
      calcResistanceIntensity, calcCardioIntensity, calcVolumeLoad,
      calcTempoFactor, pyclip]
    all_goals norm_num

/-- Witness for C2 (amended) at the single-record list `[(10,50,3)]`. -/
theorem cardio_amended_location_w :
    (cleanCoeffs [⟨10, 50, 3⟩] 100 defaultCoeffs 1).cardio_intensity = 1/3 :=
  (cardio_amended_location [⟨10, 50, 3⟩] 100 defaultCoeffs 1 (by norm_num)
    (by simp) (by norm_num)).2.2.1

/-- Claim C3, counterexample: The claim says an out-of-range number maps to
the default `3` and an in-range number passes through unchanged.  The code
truncates first (`int(float(value))`): `5.9` (out of the 1–5 range) maps to
`5`, not `3`; and the serving-layer mapper has no numeric path at all, so
the numeric string `"4"` maps to the default `3` instead of passing
through. -/
theorem sepa_truncation_cx :
    mapSepaToNumeric (.num (59/10)) moodMappingV4 3 = 5
    ∧ ¬((59:ℚ)/10 ≤ 5)
    ∧ (5:ℤ) ≠ 3
    ∧ mapSepaServing "4" = 3 := by
  refine ⟨?_, by norm_num, by norm_num, ?_⟩
  · have ht : pytrunc (59/10) = 5 := by
      rw [pytrunc, if_pos (by norm_num)]
      norm_num [Int.floor_eq_iff]
    simp only [mapSepaToNumeric, ht]
    norm_num
  · simp +decide [mapSepaServing, servingSepaPairs]

/-- Claim C3, amended: The data-cleaning mapper returns the default on a
missing value; numeric values (and numeric strings) are truncated toward
zero by `int(float(value))` and the *truncated* value is passed through
when it lies in `1..5` (so `4.7 ↦ 4`), the default being returned only
when the truncation falls outside `1..5`; non-numeric strings get a
stripped exact-then-case-insensitive table lookup with the default on no
match.  The serving-layer mapper is only a lowercase table lookup with
default `3`. -/
theorem sepa_amended_behavior (mapping : List (String × ℤ)) (dflt : ℤ) (q : ℚ)
    (s : String) (hq : 1 ≤ pytrunc q ∧ pytrunc q ≤ 5) :
    mapSepaToNumeric .missing mapping dflt = dflt
    ∧ mapSepaToNumeric (.num q) mapping dflt = pytrunc q
    ∧ (∀ q' : ℚ, ¬(1 ≤ pytrunc q' ∧ pytrunc q' ≤ 5) →
        mapSepaToNumeric (.num q') mapping dflt = dflt)
    ∧ (pyFloatChars s.data = none →
        mapSepaToNumeric (.str s) mapping dflt = sepaLookupList mapping s dflt)
    ∧ (∀ q' : ℚ, pyFloatChars s.data = some q' → ¬(1 ≤ pytrunc q' ∧ pytrunc q' ≤ 5) →
        mapSepaToNumeric (.str s) mapping dflt = sepaLookupList mapping s dflt)
    ∧ mapSepaToNumeric (.str " very good ") moodMappingV4 3 = 5
    ∧ mapSepaToNumeric (.str "zzz") moodMappingV4 3 = 3
    ∧ mapSepaToNumeric (.num (47/10)) moodMappingV4 3 = 4
    ∧ mapSepaServing "neutral" = 3
    ∧ mapSepaServing "4" = 3 := by
  refine ⟨rfl, ?_, ?_, ?_, ?_, ?_, ?_, ?_, ?_, ?_⟩
  · simp only [mapSepaToNumeric]
    rw [if_pos hq]
  · intro q' h
    simp only [mapSepaToNumeric]
    rw [if_neg h]
  · intro h
    simp only [mapSepaToNumeric, h]
  · intro q' h hn
    simp only [mapSepaToNumeric, h]
    rw [if_neg hn]
  · simp +decide [mapSepaToNumeric, sepaLookupList, moodMappingV4, pyFloatChars,
      trimChars, splitChar, decMantissa, digitsToNat]
  · simp +decide [mapSepaToNumeric, sepaLookupList, moodMappingV4, pyFloatChars,
      trimChars, splitChar, decMantissa, digitsToNat]
  · have ht : pytrunc (47/10) = 4 := by
      rw [pytrunc, if_pos (by norm_num)]
      norm_num [Int.floor_eq_iff]
    simp only [mapSepaToNumeric, ht]
    norm_num
  · simp +decide [mapSepaServing, servingSepaPairs]
  · simp +decide [mapSepaServing, servingSepaPairs]

/-- Witness for C3 (amended) at the numeric value `3` (in range). -/
theorem sepa_amended_behavior_w :
    mapSepaToNumeric (.num 3) moodMappingV4 3 = pytrunc 3 :=
  (sepa_amended_behavior moodMappingV4 3 3 "zzz" (by
    constructor <;> (rw [pytrunc, if_pos (by norm_num)]; norm_num))).2.1

/-- Claim C6: The decoder computes `adjusted_1rm = predicted * readiness`,
scales the goal's intensity-percent range by it, branches three ways on
readiness (`>1.1`: `int(0.8*midpoint)` reps, max sets, min rest; `<0.9`:
`int(1.2*midpoint)` reps, min sets, max rest; else the midpoints), falls
back to `general_fitness` on an unknown goal, and on
`decode(100, "strength", 1.2)` yields `adjusted_1rm = 120`, weight range
`[102, 114]` and the fewer-reps branch `(8 reps, 5 sets, 3 min rest)`. -/
theorem workout_decoding_branches (p r : ℚ) (g : String) :
    (decodeIntensityToWorkout p g r).adjusted1rm = round2 (p * r)
    ∧ (decodeIntensityToWorkout p g r).weightMin = round2 (p * r * (rulesFor g).ipMin)
    ∧ (decodeIntensityToWorkout p g r).weightMax = round2 (p * r * (rulesFor g).ipMax)
    ∧ (11/10 < r →
        (decodeIntensityToWorkout p g r).repRec
            = pytrunc ((((rulesFor g).repMin + (rulesFor g).repMax : ℤ) : ℚ) / 2 * (8/10))
        ∧ (decodeIntensityToWorkout p g r).setsRec = (rulesFor g).setsMax
        ∧ (decodeIntensityToWorkout p g r).restRec = (rulesFor g).restMin)
    ∧ (r < 9/10 →
        (decodeIntensityToWorkout p g r).repRec
            = pytrunc ((((rulesFor g).repMin + (rulesFor g).repMax : ℤ) : ℚ) / 2 * (12/10))
        ∧ (decodeIntensityToWorkout p g r).setsRec = (rulesFor g).setsMin
        ∧ (decodeIntensityToWorkout p g r).restRec = (rulesFor g).restMax)
    ∧ (¬(11/10 < r) → ¬(r < 9/10) →
        (decodeIntensityToWorkout p g r).repRec
            = Int.fdiv ((rulesFor g).repMin + (rulesFor g).repMax) 2
        ∧ (decodeIntensityToWorkout p g r).setsRec
            = Int.fdiv ((rulesFor g).setsMin + (rulesFor g).setsMax) 2
        ∧ (decodeIntensityToWorkout p g r).restRec
            = ((rulesFor g).restMin + (rulesFor g).restMax) / 2)
    ∧ (workoutGoalMappingV4 g = none →
        decodeIntensityToWorkout p g r = decodeIntensityToWorkout p "general_fitness" r)
    ∧ (decodeIntensityToWorkout 100 "strength" (12/10)).adjusted1rm = 120
    ∧ (decodeIntensityToWorkout 100 "strength" (12/10)).weightMin = 102
    ∧ (decodeIntensityToWorkout 100 "strength" (12/10)).weightMax = 114
    ∧ (decodeIntensityToWorkout 100 "strength" (12/10)).repRec = 8
    ∧ (decodeIntensityToWorkout 100 "strength" (12/10)).setsRec = 5
    ∧ (decodeIntensityToWorkout 100 "strength" (12/10)).restRec = 3
    ∧ (decodeIntensityToWorkout 100 "strength" 1).repRec = 10
    ∧ (decodeIntensityToWorkout 100 "strength" 1).setsRec = 3
    ∧ (decodeIntensityToWorkout 100 "strength" 1).restRec = 4 := by
  have hb12 : (11/10 : ℚ) < 12/10 := by norm_num
  refine ⟨rfl, rfl, rfl, ?_, ?_, ?_, ?_, ?_, ?_, ?_, ?_, ?_, ?_, ?_, ?_, ?_⟩
  · intro h
    refine ⟨?_, ?_, ?_⟩ <;> (simp only [decodeIntensityToWorkout]; rw [if_pos h])
  · intro h
    have h' : ¬(11/10 < r) := by linarith
    refine ⟨?_, ?_, ?_⟩ <;>
      (simp only [decodeIntensityToWorkout]; rw [if_neg h', if_pos h])
  · intro h1 h2
    refine ⟨?_, ?_, ?_⟩ <;>
      (simp only [decodeIntensityToWorkout]; rw [if_neg h1, if_neg h2])
  · intro hnone
    have hga : goalAfterFallback g = "general_fitness" := by
      simp [goalAfterFallback, hnone]
    have hga2 : goalAfterFallback "general_fitness" = "general_fitness" := by
      simp +decide [goalAfterFallback, workoutGoalMappingV4]
    have hrf : rulesFor g = generalFitnessRules := by
      simp +decide [rulesFor, hga, workoutGoalMappingV4]
    have hrf2 : rulesFor "general_fitness" = generalFitnessRules := by
      simp +decide [rulesFor, hga2, workoutGoalMappingV4]
    simp only [decodeIntensityToWorkout, hga, hga2, hrf, hrf2]
  · simp +decide [decodeIntensityToWorkout, goalAfterFallback, rulesFor,
      workoutGoalMappingV4, generalFitnessRules, round2, round_eq]
    all_goals norm_num
  · simp +decide [decodeIntensityToWorkout, goalAfterFallback, rulesFor,
      workoutGoalMappingV4, generalFitnessRules, round2, round_eq]
    all_goals norm_num
  · simp +decide [decodeIntensityToWorkout, goalAfterFallback, rulesFor,
      workoutGoalMappingV4, generalFitnessRules, round2, round_eq]
    all_goals norm_num
  · simp +decide [decodeIntensityToWorkout, goalAfterFallback, rulesFor,
      workoutGoalMappingV4, generalFitnessRules, pytrunc, hb12]
    all_goals norm_num [Int.floor_eq_iff]
  · simp +decide [decodeIntensityToWorkout, goalAfterFallback, rulesFor,
      workoutGoalMappingV4, generalFitnessRules, hb12]
  · simp +decide [decodeIntensityToWorkout, goalAfterFallback, rulesFor,
      workoutGoalMappingV4, generalFitnessRules, hb12]
  · simp +decide [decodeIntensityToWorkout, goalAfterFallback, rulesFor,
      workoutGoalMappingV4, generalFitnessRules]
    all_goals norm_num
  · simp +decide [decodeIntensityToWorkout, goalAfterFallback, rulesFor,
      workoutGoalMappingV4, generalFitnessRules]
    all_goals norm_num
  · simp +decide [decodeIntensityToWorkout, goalAfterFallback, rulesFor,
      workoutGoalMappingV4, generalFitnessRules]
    all_goals norm_num

/-- Witness for C6: the unknown-goal fallback applied at a concrete goal. -/
theorem workout_decoding_branches_w :
    decodeIntensityToWorkout 50 "cardio_blast" 1 = decodeIntensityToWorkout 50 "general_fitness" 1 :=
  (workout_decoding_branches 50 1 "cardio_blast").2.2.2.2.2.2.1 (by
    simp +decide [workoutGoalMappingV4])

/-- Item `a` precedes item `b` in the descending suitability order. -/
def recScoreGe (a b : RecItem) : Prop := b.suitabilityScore ≤ a.suitabilityScore

lemma mem_insertRecDesc (x item : RecItem) :
    ∀ l : List RecItem, x ∈ insertRecDesc item l ↔ x = item ∨ x ∈ l := by
  intro l
  induction l with
  | nil => simp [insertRecDesc]
  | cons h t ih =>
    by_cases hc : item.suitabilityScore ≤ h.suitabilityScore
    · rw [insertRecDesc, if_pos hc]
      simp only [List.mem_cons, ih]
      tauto
    · rw [insertRecDesc, if_neg hc]
      simp only [List.mem_cons]

lemma mem_sortRecsDesc (x : RecItem) :
    ∀ l : List RecItem, x ∈ sortRecsDesc l ↔ x ∈ l := by
  intro l
  induction l with
  | nil => simp [sortRecsDesc]
  | cons h t ih =>
    have hstep : sortRecsDesc (h :: t) = insertRecDesc h (sortRecsDesc t) := rfl
    rw [hstep, mem_insertRecDesc]
    simp only [List.mem_cons, ih]

lemma sorted_insertRecDesc (item : RecItem) :
    ∀ l : List RecItem, List.Sorted recScoreGe l →
      List.Sorted recScoreGe (insertRecDesc item l) := by
  intro l
  induction l with
  | nil =>
    intro _
    simp [insertRecDesc, List.sorted_singleton]
  | cons h t ih =>
    intro hs
    have hs' := List.sorted_cons.mp hs
    by_cases hc : item.suitabilityScore ≤ h.suitabilityScore
    · rw [insertRecDesc, if_pos hc, List.sorted_cons]
      constructor
      · intro b hb
        rcases (mem_insertRecDesc b item t).mp hb with rfl | hb
        · exact hc
        · exact hs'.1 b hb
      · exact ih hs'.2
    · push_neg at hc
      rw [insertRecDesc, if_neg (not_le.mpr hc), List.sorted_cons]
      constructor
      · intro b hb
        rcases List.mem_cons.mp hb with rfl | hb
        · exact le_of_lt hc
        · exact le_trans (hs'.1 b hb) (le_of_lt hc)
      · exact hs

lemma sorted_sortRecsDesc : ∀ l : List RecItem, List.Sorted recScoreGe (sortRecsDesc l) := by
  intro l
  induction l with
  | nil => simp [sortRecsDesc]
  | cons h t ih => exact sorted_insertRecDesc h (sortRecsDesc t) ih

/-- Claim C10: the function `recommend_v4` keeps a candidate only when its predicted
suitability score is strictly greater than `0.4` (a score of exactly `0.4`
is dropped), sorts the surviving items by suitability score
non-increasingly, and truncates to at most `top_k` items. -/
theorem recommend_filter_sort_truncate (xs : List (RecCandidate × ℚ × ℚ)) (topK : ℕ) :
    (recommendV4Core xs topK).length ≤ topK
    ∧ (∀ item ∈ recommendV4Core xs topK,
        ∃ c ∈ xs, 4/10 < c.2.2
          ∧ item = ⟨c.1.id, c.1.name, round1 c.2.1, round3 c.2.2⟩)
    ∧ List.Sorted recScoreGe (recommendV4Core xs topK)
    ∧ recommendV4Core [(⟨"e1", "X"⟩, 1, 4/10)] 5 = [] := by
  refine ⟨List.length_take_le _ _, ?_, ?_, ?_⟩
  · intro item hitem
    have h1 : item ∈ sortRecsDesc (buildRecItems xs) := List.take_subset _ _ hitem
    have h2 : item ∈ buildRecItems xs := (mem_sortRecsDesc _ _).mp h1
    obtain ⟨c, hc, hfc⟩ := List.mem_filterMap.mp h2
    by_cases hsc : 4/10 < c.2.2
    · rw [if_pos hsc] at hfc
      exact ⟨c, hc, hsc, (Option.some_injective _ hfc).symm⟩
    · rw [if_neg hsc] at hfc
      exact absurd hfc (by simp)
  · exact List.Pairwise.sublist (List.take_sublist _ _) (sorted_sortRecsDesc _)
  · norm_num [recommendV4Core, buildRecItems, sortRecsDesc, List.filterMap_cons]

/-- Witness for C10 at a concrete two-candidate list. -/
theorem recommend_filter_sort_truncate_w :
    (recommendV4Core [(⟨"e1", "A"⟩, 5, 1/2), (⟨"e2", "B"⟩, 6, 9/10)] 1).length ≤ 1
    ∧ List.Sorted recScoreGe
        (recommendV4Core [(⟨"e1", "A"⟩, 5, 1/2), (⟨"e2", "B"⟩, 6, 9/10)] 1) :=
  ⟨(recommend_filter_sort_truncate [(⟨"e1", "A"⟩, 5, 1/2), (⟨"e2", "B"⟩, 6, 9/10)] 1).1,
   (recommend_filter_sort_truncate [(⟨"e1", "A"⟩, 5, 1/2), (⟨"e2", "B"⟩, 6, 9/10)] 1).2.2.1⟩

end TFit
